import Mathlib

/-!
Shallow embedding of `src/storaged/storaged_uid_monitor.cpp` (the uid I/O
monitor of storaged) and proofs about its operations.

Modelling conventions:
* `uint64_t` counters are `Nat` values; every operation that the C++ code
  performs in 64-bit arithmetic is modelled with an explicit `% 2 ^ 64`
  (`add64`, `usub64`, `toInt64`).
* `std::map` (ordered) is an association list kept in strictly increasing
  key order by `records_insert`; `lower_bound`-based range erasure becomes
  `List.dropWhile`.
* `std::unordered_map` is an association list with first-match lookup
  (`alookup`) and insert-or-update (`aset` / `aupdate`); `operator[]`'s
  value-initialising default insert is modelled via `getD {}`.
* The raw stats file read (`ReadFileToString` + row parsing) is an input
  `Option (List RowData)` of already parsed rows: `none` is a failed read,
  row parsing itself is outside the modelled claims.  The package-manager
  name resolution (binder IPC inside `get_uid_names`) is an input function
  `List Nat → Option (List String)`; `none` models each of its early-return
  failure paths, which leave the refresh flag set.
* The file-scope `static bool refresh_uid_names` is a field of the monitor
  state.
-/

namespace Spec2Proof

/-- The modulus of `uint64_t` arithmetic. -/
def w64 : Nat := 2 ^ 64

/-- `uint64_t` addition (wraps modulo `2 ^ 64`). -/
def add64 (a b : Nat) : Nat := (a + b) % w64

/-- `uint64_t` subtraction `a - b` (wraps modulo `2 ^ 64`). -/
def usub64 (a b : Nat) : Nat := (a % w64 + (w64 - b % w64)) % w64

/-- Reinterpretation of a `uint64_t` bit pattern as an `int64_t`
(two's complement). -/
def toInt64 (x : Nat) : Int :=
  if x % w64 < 2 ^ 63 then ((x % w64 : Nat) : Int)
  else ((x % w64 : Nat) : Int) - (w64 : Int)

/-- The delta actually added for one counter:
`int64_t delta = curr - prev;` (computed in `uint64_t`, converted to
`int64_t`) followed by `(delta < 0) ? 0 : delta`
(`uid_monitor::update_curr_io_stats_locked`, lines 302-318 and 324-341). -/
def clamped_delta (curr prev : Nat) : Nat :=
  let delta := toInt64 (usub64 curr prev)
  if delta < 0 then 0 else delta.toNat

/-- Index `i` of `bytes[i][j][k]`: `READ` / `WRITE`. -/
inductive IoDir
| READ
| WRITE
deriving DecidableEq

/-- Index `j` of `bytes[i][j][k]`: `FOREGROUND` / `BACKGROUND`. -/
inductive UidStat
| FOREGROUND
| BACKGROUND
deriving DecidableEq

/-- Index `k` of `bytes[i][j][k]`: `charger_stat_t`. -/
inductive ChargerStat
| CHARGER_OFF
| CHARGER_ON
deriving DecidableEq

/-- `struct io_usage`: the 8-cell matrix `bytes[IO_TYPES][UID_STATS][CHARGER_STATS]`,
one named field per cell. -/
structure io_usage where
  read_fg_on : Nat := 0
  read_fg_off : Nat := 0
  read_bg_on : Nat := 0
  read_bg_off : Nat := 0
  write_fg_on : Nat := 0
  write_fg_off : Nat := 0
  write_bg_on : Nat := 0
  write_bg_off : Nat := 0
deriving DecidableEq

instance : Inhabited io_usage := ⟨{}⟩

/-- Cell selector `u.bytes[i][j][k]`. -/
def io_usage.cell (u : io_usage) : IoDir → UidStat → ChargerStat → Nat
  | .READ, .FOREGROUND, .CHARGER_ON => u.read_fg_on
  | .READ, .FOREGROUND, .CHARGER_OFF => u.read_fg_off
  | .READ, .BACKGROUND, .CHARGER_ON => u.read_bg_on
  | .READ, .BACKGROUND, .CHARGER_OFF => u.read_bg_off
  | .WRITE, .FOREGROUND, .CHARGER_ON => u.write_fg_on
  | .WRITE, .FOREGROUND, .CHARGER_OFF => u.write_fg_off
  | .WRITE, .BACKGROUND, .CHARGER_ON => u.write_bg_on
  | .WRITE, .BACKGROUND, .CHARGER_OFF => u.write_bg_off

/-- The four consecutive `+=` statements that charge one interval's clamped
deltas to the cells `bytes[READ][FOREGROUND][cs]`, `bytes[READ][BACKGROUND][cs]`,
`bytes[WRITE][FOREGROUND][cs]`, `bytes[WRITE][BACKGROUND][cs]`. -/
def io_usage.add4 (u : io_usage) (cs : ChargerStat)
    (rd_fg rd_bg wr_fg wr_bg : Nat) : io_usage :=
  match cs with
  | .CHARGER_ON =>
    { u with read_fg_on := add64 u.read_fg_on rd_fg,
             read_bg_on := add64 u.read_bg_on rd_bg,
             write_fg_on := add64 u.write_fg_on wr_fg,
             write_bg_on := add64 u.write_bg_on wr_bg }
  | .CHARGER_OFF =>
    { u with read_fg_off := add64 u.read_fg_off rd_fg,
             read_bg_off := add64 u.read_bg_off rd_bg,
             write_fg_off := add64 u.write_fg_off wr_fg,
             write_bg_off := add64 u.write_bg_off wr_bg }

/-- `io_usage::is_zero`: the triple loop over all 8 cells. -/
def io_usage.is_zero (u : io_usage) : Bool :=
  u.read_fg_on == 0 && u.read_fg_off == 0 && u.read_bg_on == 0 && u.read_bg_off == 0 &&
  u.write_fg_on == 0 && u.write_fg_off == 0 && u.write_bg_on == 0 && u.write_bg_off == 0

/-- Mathematical (unwrapped) sum of all 8 cells; used only in theorem
statements to compare against the code's wrapped sum. -/
def total_bytes (u : io_usage) : Nat :=
  u.read_fg_on + u.read_fg_off + u.read_bg_on + u.read_bg_off +
  u.write_fg_on + u.write_fg_off + u.write_bg_on + u.write_bg_off

/-- `struct io_stats`: one priority class's cumulative counters. -/
structure io_stats where
  rchar : Nat := 0
  wchar : Nat := 0
  read_bytes : Nat := 0
  write_bytes : Nat := 0
  fsync : Nat := 0
deriving DecidableEq

instance : Inhabited io_stats := ⟨{}⟩

/-- `struct task_info` (`io[FOREGROUND]` / `io[BACKGROUND]` modelled as the
two fields `io_fg` / `io_bg`). -/
structure task_info where
  pid : Int := 0
  comm : String := ""
  io_fg : io_stats := {}
  io_bg : io_stats := {}
deriving DecidableEq

instance : Inhabited task_info := ⟨{}⟩

/-- `struct uid_info` (again `io[2]` split into `io_fg` / `io_bg`;
`tasks` is the `std::map<pid_t, task_info>`). -/
structure uid_info where
  uid : Nat := 0
  name : String := ""
  io_fg : io_stats := {}
  io_bg : io_stats := {}
  tasks : List (Int × task_info) := []
deriving DecidableEq

instance : Inhabited uid_info := ⟨{}⟩

/-- `struct uid_io_usage`: one accumulator entry, the uid-level `io_usage`
plus the command-name-keyed task map. -/
structure uid_io_usage where
  uid_ios : io_usage := {}
  task_ios : List (String × io_usage) := []
deriving DecidableEq

instance : Inhabited uid_io_usage := ⟨{}⟩

/-- `struct uid_record`. -/
structure uid_record where
  name : String := ""
  ios : uid_io_usage := {}
deriving DecidableEq

instance : Inhabited uid_record := ⟨{}⟩

/-- `struct uid_records`: one time bucket. -/
structure uid_records where
  start_ts : Nat := 0
  entries : List uid_record := []
deriving DecidableEq

instance : Inhabited uid_records := ⟨{}⟩

/-- First-match association-list lookup (`find` on a map). -/
def alookup {κ α : Type} [DecidableEq κ] : List (κ × α) → κ → Option α
  | [], _ => none
  | (k', v) :: t, k => if k = k' then some v else alookup t k

/-- `map[k] = v`: replace the entry at `k`, or append a new one. -/
def aset {κ α : Type} [DecidableEq κ] : List (κ × α) → κ → α → List (κ × α)
  | [], k, v => [(k, v)]
  | (k', v') :: t, k, v => if k = k' then (k', v) :: t else (k', v') :: aset t k v

/-- `f` applied in place to `map[k]`, where absent keys are first
value-initialised (the `operator[]` default-insert). -/
def aupdate {κ α : Type} [DecidableEq κ] [Inhabited α] :
    List (κ × α) → κ → (α → α) → List (κ × α)
  | [], k, f => [(k, f default)]
  | (k', v) :: t, k, f => if k = k' then (k', f v) :: t else (k', v) :: aupdate t k f

/-- `last_uid_io_stats[uid]` with the value-initialised default. -/
def lookup_uid_info (l : List (Nat × uid_info)) (k : Nat) : uid_info :=
  (alookup l k).getD {}

/-- `last_uid_io_stats[uid].tasks[pid]` with the value-initialised default. -/
def lookup_task_info (l : List (Int × task_info)) (k : Int) : task_info :=
  (alookup l k).getD {}

/-- `curr_io_stats[name]` with the value-initialised default. -/
def curr_usage (curr : List (String × uid_io_usage)) (n : String) : uid_io_usage :=
  (alookup curr n).getD {}

/-- `task_ios[comm]` with the value-initialised default. -/
def task_usage (l : List (String × io_usage)) (c : String) : io_usage :=
  (alookup l c).getD {}

/-- `MAX_UID_RECORDS_SIZE = 1000 * 48` (line 188). -/
def MAX_UID_RECORDS_SIZE : Nat := 1000 * 48

/-- Modelled from the spec: `DAY_TO_SEC` is defined in `storaged.h`, which is
not under `src/`; the spec equates the 5-day retention window with 432000
seconds, so one day is 86400 seconds. -/
def DAY_TO_SEC : Nat := 86400

/-- Modelled from the spec: `HOUR_TO_SEC` is defined in `storaged.h`, which is
not under `src/`; the spec writes the dump age window as hours × 3600. -/
def HOUR_TO_SEC : Nat := 3600

/-- `records_size`: total entry count over all buckets (lines 190-198). -/
def records_size : List (Nat × uid_records) → Nat
  | [] => 0
  | kv :: t => kv.2.entries.length + records_size t

/-- The age-based prune at the top of `add_records_locked` (lines 202-206):
erase `[begin, lower_bound(curr_ts - 5 * DAY_TO_SEC))`, guarded by
`curr_ts > 5 * DAY_TO_SEC`. -/
def prune_old_records (curr_ts : Nat) (records : List (Nat × uid_records)) :
    List (Nat × uid_records) :=
  if 5 * DAY_TO_SEC < curr_ts then
    records.dropWhile (fun kv => kv.1 < curr_ts - 5 * DAY_TO_SEC)
  else records

/-- The candidate-bucket construction loop of `add_records_locked`
(lines 208-220): one `uid_record` per accumulator entry with nonzero
uid-level usage, keeping only the nonzero task usages. -/
def build_new_entries (curr_io_stats : List (String × uid_io_usage)) :
    List uid_record :=
  curr_io_stats.filterMap (fun p =>
    if p.2.uid_ios.is_zero then none
    else some { name := p.1,
                ios := { uid_ios := p.2.uid_ios,
                         task_ios := p.2.task_ios.filter (fun q => !q.2.is_zero) } })

/-- The eviction loop of `add_records_locked` (lines 232-236):
`while (overflow > 0 && records.size() > 0)` pop the oldest whole bucket. -/
def evict_oldest : Int → List (Nat × uid_records) → List (Nat × uid_records)
  | _, [] => []
  | ov, b :: t =>
    if 0 < ov then evict_oldest (ov - (b.2.entries.length : Int)) t else b :: t

/-- Sorted insert / overwrite for the ordered `std::map<uint64_t, uid_records>`
(`records[curr_ts] = new_records`). -/
def records_insert (k : Nat) (v : uid_records) :
    List (Nat × uid_records) → List (Nat × uid_records)
  | [] => [(k, v)]
  | (k', v') :: t =>
    if k < k' then (k, v) :: (k', v') :: t
    else if k = k' then (k, v) :: t
    else (k', v') :: records_insert k v t

/-- The monitor state: the fields of `class uid_monitor` plus the file-scope
`static bool refresh_uid_names`. -/
structure uid_monitor where
  charger_stat : ChargerStat := .CHARGER_OFF
  start_ts : Nat := 0
  last_uid_io_stats : List (Nat × uid_info) := []
  curr_io_stats : List (String × uid_io_usage) := []
  records : List (Nat × uid_records) := []
  refresh_uid_names : Bool := false
deriving DecidableEq

instance : Inhabited uid_monitor := ⟨{}⟩

/-- `uid_monitor::add_records_locked` (lines 200-239). -/
def uid_monitor.add_records_locked (m : uid_monitor) (curr_ts : Nat) : uid_monitor :=
  let records1 := prune_old_records curr_ts m.records
  let new_entries := build_new_entries m.curr_io_stats
  let new_records : uid_records := { start_ts := m.start_ts, entries := new_entries }
  let m1 := { m with curr_io_stats := [], start_ts := curr_ts, records := records1 }
  if new_entries.isEmpty then m1
  else
    let overflow : Int :=
      (records_size records1 : Int) + new_entries.length - MAX_UID_RECORDS_SIZE
    { m1 with records := records_insert curr_ts new_records (evict_oldest overflow records1) }

/-- Wrapped 8-cell sum compared against `threshold` in `uid_monitor::dump`
(lines 263-270), written in the source's cell order; the additions are
`uint64_t`, hence the modulus. -/
def dump_threshold_sum (u : io_usage) : Nat :=
  (u.read_fg_on + u.read_fg_off + u.read_bg_on + u.read_bg_off +
   u.write_fg_on + u.write_fg_off + u.write_bg_on + u.write_bg_off) % w64

/-- The per-bucket body of the `dump` loop (lines 257-281): keep the records
whose wrapped 8-cell sum strictly exceeds the threshold, drop the bucket if
none survives, preserve its original `start_ts`. -/
def dump_bucket (threshold : Nat) (kv : Nat × uid_records) :
    Option (Nat × uid_records) :=
  let filtered := kv.2.entries.filter
    (fun rec => threshold < dump_threshold_sum rec.ios.uid_ios)
  if filtered.isEmpty then none
  else some (kv.1, { start_ts := kv.2.start_ts, entries := filtered })

/-- The body of `uid_monitor::dump` after the lock is taken (lines 250-283):
age-window selection by `lower_bound(first_ts)`, then the per-bucket filter. -/
def dump_locked (records : List (Nat × uid_records)) (now hours threshold : Nat) :
    List (Nat × uid_records) :=
  let first_ts := if hours ≠ 0 then now - hours * HOUR_TO_SEC else 0
  (records.dropWhile (fun kv => kv.1 < first_ts)).filterMap (dump_bucket threshold)

/-- One parsed row of the raw stats source: a uid-summary row
(`uid_info::parse_uid_io_stats`) or a task-detail row
(`task_info::parse_task_io_stats`). -/
inductive RowData
| uid_row (uid : Nat) (io_fg io_bg : io_stats)
| task_row (t : task_info)
deriving DecidableEq

/-- One iteration of the row loop of `uid_monitor::get_uid_io_stats_locked`
(lines 156-179).  The fold state is
`(uid_io_stats, uids, current uid for task attachment, refresh_uid_names)`. -/
def process_row (last : List (Nat × uid_info)) :
    List (Nat × uid_info) × List Nat × Nat × Bool → RowData →
    List (Nat × uid_info) × List Nat × Nat × Bool
  | (stats, uids, _, refresh), .uid_row uid io_fg io_bg =>
    let entry : uid_info :=
      { uid := uid, name := toString uid, io_fg := io_fg, io_bg := io_bg, tasks := [] }
    match alookup last uid with
    | some lu => (aset stats uid { entry with name := lu.name }, uids ++ [uid], uid, refresh)
    | none => (aset stats uid entry, uids ++ [uid], uid, true)
  | (stats, uids, cur_uid, refresh), .task_row t =>
    (aupdate stats cur_uid (fun e => { e with tasks := aset e.tasks t.pid t }),
     uids, cur_uid, refresh)

/-- The name-writing loop of `get_uid_names` (lines 133-137): for each
queried uid, a non-empty resolved name overwrites that uid's name field. -/
def apply_uid_names (stats : List (Nat × uid_info)) (uids : List Nat)
    (names : List String) : List (Nat × uid_info) :=
  (List.range uids.length).foldl (fun s i =>
    if names.getD i "" ≠ "" then
      aupdate s (uids.getD i 0) (fun e => { e with name := names.getD i "" })
    else s) stats

/-- `uid_monitor::get_uid_io_stats_locked` (lines 142-186), returning the
fresh snapshot map together with the updated `refresh_uid_names` flag.
A `none` read models the `ReadFileToString` failure (empty map returned);
a `none` resolver result models each early-return failure path of
`get_uid_names`, which leaves `refresh_uid_names` set. -/
def get_uid_io_stats_locked (last : List (Nat × uid_info)) (refresh : Bool)
    (raw_read : Option (List RowData))
    (resolver : List Nat → Option (List String)) :
    List (Nat × uid_info) × Bool :=
  match raw_read with
  | none => ([], refresh)
  | some rows =>
    let st := rows.foldl (process_row last) ([], [], 0, refresh)
    let stats := st.1
    let uids := st.2.1
    let refresh1 := st.2.2.2
    if !uids.isEmpty && refresh1 then
      match resolver uids with
      | none => (stats, refresh1)
      | some names => (apply_uid_names stats uids names, false)
    else (stats, refresh1)

/-- The task loop of `uid_monitor::update_curr_io_stats_locked`
(lines 320-342): clamped per-task deltas merged into the accumulator entry's
command-name-keyed map. -/
def accumulate_task_locked (cs : ChargerStat) (prev : uid_info)
    (acc : uid_io_usage) (pt : Int × task_info) : uid_io_usage :=
  let t := pt.2
  let prev_task := lookup_task_info prev.tasks pt.1
  let task_fg_rd_delta := clamped_delta t.io_fg.read_bytes prev_task.io_fg.read_bytes
  let task_bg_rd_delta := clamped_delta t.io_bg.read_bytes prev_task.io_bg.read_bytes
  let task_fg_wr_delta := clamped_delta t.io_fg.write_bytes prev_task.io_fg.write_bytes
  let task_bg_wr_delta := clamped_delta t.io_bg.write_bytes prev_task.io_bg.write_bytes
  { acc with task_ios := aupdate acc.task_ios t.comm (fun tu =>
      tu.add4 cs task_fg_rd_delta task_bg_rd_delta task_fg_wr_delta task_bg_wr_delta) }

/-- The per-uid body of `uid_monitor::update_curr_io_stats_locked`
(lines 294-342): uid-level clamped deltas charged to the cells keyed by the
current charger state, then the task loop. -/
def accumulate_uid_locked (usage : uid_io_usage) (u : uid_info) (prev : uid_info)
    (cs : ChargerStat) : uid_io_usage :=
  let fg_rd_delta := clamped_delta u.io_fg.read_bytes prev.io_fg.read_bytes
  let bg_rd_delta := clamped_delta u.io_bg.read_bytes prev.io_bg.read_bytes
  let fg_wr_delta := clamped_delta u.io_fg.write_bytes prev.io_fg.write_bytes
  let bg_wr_delta := clamped_delta u.io_bg.write_bytes prev.io_bg.write_bytes
  let usage1 :=
    { usage with uid_ios := usage.uid_ios.add4 cs fg_rd_delta bg_rd_delta fg_wr_delta bg_wr_delta }
  u.tasks.foldl (accumulate_task_locked cs prev) usage1

/-- The accumulator update over the whole snapshot: the outer loop of
`update_curr_io_stats_locked`, keyed by the uid's display name
(`curr_io_stats[uid.name]`). -/
def accumulate_all (curr : List (String × uid_io_usage))
    (stats last : List (Nat × uid_info)) (cs : ChargerStat) :
    List (String × uid_io_usage) :=
  stats.foldl (fun acc kv =>
    aupdate acc kv.2.name (fun usage =>
      accumulate_uid_locked usage kv.2 (lookup_uid_info last kv.2.uid) cs)) curr

/-- `uid_monitor::update_curr_io_stats_locked` (lines 286-346): empty
snapshot is an early return; otherwise accumulate and replace the retained
snapshot wholesale. -/
def uid_monitor.update_curr_io_stats_locked (m : uid_monitor)
    (raw_read : Option (List RowData))
    (resolver : List Nat → Option (List String)) : uid_monitor :=
  let gr := get_uid_io_stats_locked m.last_uid_io_stats m.refresh_uid_names raw_read resolver
  let stats := gr.1
  if stats.isEmpty then { m with refresh_uid_names := gr.2 }
  else
    { m with
        curr_io_stats := accumulate_all m.curr_io_stats stats m.last_uid_io_stats m.charger_stat,
        last_uid_io_stats := stats,
        refresh_uid_names := gr.2 }

/-- `uid_monitor::report` (lines 348-354): one delta cycle followed by the
flush at the current time. -/
def uid_monitor.report (m : uid_monitor) (raw_read : Option (List RowData))
    (resolver : List Nat → Option (List String)) (now : Nat) : uid_monitor :=
  (m.update_curr_io_stats_locked raw_read resolver).add_records_locked now

/-- Lock and work events emitted by the public operations, in program order,
for reasoning about the critical-section structure. -/
inductive LockEv
| acq
| rel
| read_stats
| accumulate
| flush
| filter_records
deriving DecidableEq

/-- Event trace of `uid_monitor::report` (lines 348-354): the semaphore is
taken at function entry and released at exit. -/
def report_trace : List LockEv := [.acq, .read_stats, .accumulate, .flush, .rel]

/-- Event trace of `uid_monitor::dump` (lines 241-283): `report()` is called
before the lock is taken (line 244-248). -/
def dump_trace (force_report : Bool) : List LockEv :=
  (if force_report then report_trace else []) ++ [.acq, .filter_records, .rel]

/-- Whether an event is a lock acquisition. -/
def is_acq : LockEv → Bool
  | .acq => true
  | _ => false

/-- Number of lock acquisitions in a trace. -/
def count_acquires (t : List LockEv) : Nat := t.countP is_acq

/-- Lock depth after running a trace from an unlocked state. -/
def lock_depth (t : List LockEv) : Nat :=
  t.foldl (fun d e => match e with
    | .acq => d + 1
    | .rel => d - 1
    | _ => d) 0

/-- A trace forms one critical section: exactly one acquisition, which is
the first event, with the release as the last event. -/
def single_critical_section (t : List LockEv) : Prop :=
  count_acquires t = 1 ∧ t.head? = some .acq ∧ t.getLast? = some .rel

/-- Discipline of the non-reentrant binary semaphore `um_lock`: starting at
depth `d`, every acquisition happens with the lock free and every release
with the lock held. -/
def well_locked : Nat → List LockEv → Bool
  | d, [] => d == 0
  | d, .acq :: t => d == 0 && well_locked 1 t
  | d, .rel :: t => d == 1 && well_locked 0 t
  | d, _ :: t => well_locked d t

/-- Selector of the cumulative counter that the delta engine reads for one
(direction, priority) pair: `read_bytes` / `write_bytes` of the
foreground / background `io_stats`. -/
def rw_bytes (io_fg io_bg : io_stats) : IoDir → UidStat → Nat
  | .READ, .FOREGROUND => io_fg.read_bytes
  | .READ, .BACKGROUND => io_bg.read_bytes
  | .WRITE, .FOREGROUND => io_fg.write_bytes
  | .WRITE, .BACKGROUND => io_bg.write_bytes

/-- Sum of the clamped deltas contributed to the accumulator entry of display
name `n` by all uids of the snapshot bearing that name, for one
(direction, priority) pair. -/
def uid_delta_sum (stats last : List (Nat × uid_info)) (n : String)
    (dd : IoDir) (ss : UidStat) : Nat :=
  ((stats.filter (fun kv => kv.2.name == n)).map (fun kv =>
    clamped_delta (rw_bytes kv.2.io_fg kv.2.io_bg dd ss)
      (rw_bytes (lookup_uid_info last kv.2.uid).io_fg
        (lookup_uid_info last kv.2.uid).io_bg dd ss))).sum

/-- Selector of one of the four per-`add4` arguments by (direction, priority);
statement-side vocabulary only. -/
def pick4 (dd : IoDir) (ss : UidStat) (a b c d : Nat) : Nat :=
  match dd, ss with
  | .READ, .FOREGROUND => a
  | .READ, .BACKGROUND => b
  | .WRITE, .FOREGROUND => c
  | .WRITE, .BACKGROUND => d

/-- The display name a snapshot map holds for a uid (value-initialised
default for absent uids). -/
def snapshot_name (stats : List (Nat × uid_info)) (uid : Nat) : String :=
  (lookup_uid_info stats uid).name

/-! ### Concrete states used by counterexamples and witnesses -/

/-- Concrete monitor state for the C3 counterexample: accumulator start time
5 and one stored bucket at key 1. -/
def cx3_monitor : uid_monitor :=
  { charger_stat := .CHARGER_OFF, start_ts := 5, last_uid_io_stats := [],
    curr_io_stats := [],
    records := [(1, { start_ts := 0,
                      entries := [{ name := "x",
                                    ios := { uid_ios := { read_fg_off := 7 },
                                             task_ios := [] } }] })],
    refresh_uid_names := false }

/-- Concrete accumulator with `MAX_UID_RECORDS_SIZE + 1` nonzero entries,
used to refute the cap claim. -/
def cx1_curr : List (String × uid_io_usage) :=
  (List.range (MAX_UID_RECORDS_SIZE + 1)).map
    (fun i => (toString i, { uid_ios := { read_fg_off := 1 }, task_ios := [] }))

/-- Monitor holding that oversized accumulator and an empty record store. -/
def cx1_monitor : uid_monitor := { curr_io_stats := cx1_curr }

/-- Small monitor for the C1 witness: one nonzero accumulator entry flushed
into an empty store stays within the cap. -/
def w1_monitor : uid_monitor :=
  { curr_io_stats := [("u", { uid_ios := { read_fg_off := 3 }, task_ios := [] })] }

/-- Sorted two-bucket store for the C5 witness. -/
def w5_monitor : uid_monitor :=
  { records := [(1, { start_ts := 0,
                      entries := [{ name := "a",
                                    ios := { uid_ios := { read_fg_off := 2 },
                                             task_ios := [] } }] }),
                (70000, { start_ts := 1,
                          entries := [{ name := "b",
                                        ios := { uid_ios := { read_fg_on := 4 },
                                                 task_ios := [] } }] })] }

/-- Concrete store for the C6 counterexample: one bucket, one record whose
two nonzero cells are each 2^63, so the `uint64_t` sum wraps to 0. -/
def cx6_records : List (Nat × uid_records) :=
  [(100, { start_ts := 50,
           entries := [{ name := "big",
                         ios := { uid_ios := { read_fg_on := 2 ^ 63,
                                               read_fg_off := 2 ^ 63 },
                                  task_ios := [] } }] })]

/-- Concrete store for the C6 witness. -/
def w6_records : List (Nat × uid_records) :=
  [(10, { start_ts := 5,
          entries := [{ name := "w",
                        ios := { uid_ios := { read_fg_on := 7 },
                                 task_ios := [] } }] })]

/-- Accumulator with a zero-uid-level entry carrying nonzero task usage, and
a nonzero entry carrying one zero and one nonzero task. -/
def w10_curr : List (String × uid_io_usage) :=
  [("zerouid", { uid_ios := {},
                 task_ios := [("t", { read_fg_on := 5 })] }),
   ("liveuid", { uid_ios := { read_fg_off := 2 },
                 task_ios := [("z", {}), ("t", { read_fg_on := 1 })] })]

/-- Two distinct-pid tasks sharing a command name, used for C8. -/
def w8_task1 : task_info := { pid := 1, comm := "sh", io_fg := { read_bytes := 5 } }

/-- The second task of the pair. -/
def w8_task2 : task_info := { pid := 2, comm := "sh", io_fg := { read_bytes := 7 } }

/-- One uid carrying the two tasks of `w8_task1` / `w8_task2`. -/
def w8_uid : uid_info := { uid := 1, tasks := [(1, w8_task1), (2, w8_task2)] }

/-- Parsed rows for the C9 counterexample: two distinct uids 1 and 2 whose
cumulative foreground read counters are 10 and 20. -/
def cx9_rows : List RowData :=
  [.uid_row 1 { read_bytes := 10 } {}, .uid_row 2 { read_bytes := 20 } {}]

/-- Resolver mapping both uids to the same display name. -/
def cx9_resolver : List Nat → Option (List String) := fun _ => some ["A", "A"]

/-- Snapshot with two uids carrying distinct display names, for the C9
witness. -/
def w9_stats : List (Nat × uid_info) :=
  [(1, { uid := 1, name := "A", io_fg := { read_bytes := 10 } }),
   (2, { uid := 2, name := "B", io_fg := { read_bytes := 20 } })]

/-- Last snapshot for the C7 counterexample: uid 1 already carries the
learned name "app1". -/
def cx7_last : List (Nat × uid_info) := [(1, { uid := 1, name := "app1" })]

/-- Sample holding the known uid 1 together with the first-time uid 2. -/
def cx7_rows : List RowData := [.uid_row 1 {} {}, .uid_row 2 {} {}]

/-- Resolver answering the batch query for both sampled uids. -/
def cx7_resolver : List Nat → Option (List String) :=
  fun _ => some ["fresh1", "app2"]

/-- Last snapshot for the C7 witness. -/
def w7_last : List (Nat × uid_info) := [(1, { uid := 1, name := "app1" })]

/-- A sample containing only the already-known uid 1. -/
def w7_rows : List RowData := [.uid_row 1 { read_bytes := 3 } {}]

/-! ### Association-list lemmas -/

theorem alookup_aset_self {κ α : Type} [DecidableEq κ] (l : List (κ × α)) (k : κ) (v : α) :
    alookup (aset l k v) k = some v := by
  induction l with
  | nil => simp [aset, alookup]
  | cons h t ih =>
    by_cases hk : k = h.1
    · simp [aset, alookup, hk]
    · simp [aset, alookup, hk, ih]

theorem alookup_aset_ne {κ α : Type} [DecidableEq κ] (l : List (κ × α)) (k k' : κ) (v : α)
    (h : k' ≠ k) : alookup (aset l k v) k' = alookup l k' := by
  induction l with
  | nil => simp [aset, alookup, h]
  | cons hd t ih =>
    by_cases hk : k = hd.1
    · subst hk
      simp [aset, alookup, h]
    · by_cases hk' : k' = hd.1
      · simp [aset, alookup, hk, hk']
      · simp [aset, alookup, hk, hk', ih]

theorem alookup_aupdate_self {κ α : Type} [DecidableEq κ] [Inhabited α]
    (l : List (κ × α)) (k : κ) (f : α → α) :
    alookup (aupdate l k f) k = some (f ((alookup l k).getD default)) := by
  induction l with
  | nil => simp [aupdate, alookup]
  | cons h t ih =>
    by_cases hk : k = h.1
    · simp [aupdate, alookup, hk]
    · simp [aupdate, alookup, hk, ih]

theorem alookup_aupdate_ne {κ α : Type} [DecidableEq κ] [Inhabited α]
    (l : List (κ × α)) (k k' : κ) (f : α → α) (h : k' ≠ k) :
    alookup (aupdate l k f) k' = alookup l k' := by
  induction l with
  | nil => simp [aupdate, alookup, h]
  | cons hd t ih =>
    by_cases hk : k = hd.1
    · subst hk
      simp [aupdate, alookup, h]
    · by_cases hk' : k' = hd.1
      · simp [aupdate, alookup, hk, hk']
      · simp [aupdate, alookup, hk, hk', ih]

/-! ### Cell lemmas for `io_usage.add4` -/

theorem cell_add4_read_fg (u : io_usage) (cs : ChargerStat) (a b c d : Nat) :
    (u.add4 cs a b c d).cell .READ .FOREGROUND cs = add64 (u.cell .READ .FOREGROUND cs) a := by
  cases cs <;> rfl

theorem cell_add4_read_bg (u : io_usage) (cs : ChargerStat) (a b c d : Nat) :
    (u.add4 cs a b c d).cell .READ .BACKGROUND cs = add64 (u.cell .READ .BACKGROUND cs) b := by
  cases cs <;> rfl

theorem cell_add4_write_fg (u : io_usage) (cs : ChargerStat) (a b c d : Nat) :
    (u.add4 cs a b c d).cell .WRITE .FOREGROUND cs = add64 (u.cell .WRITE .FOREGROUND cs) c := by
  cases cs <;> rfl

theorem cell_add4_write_bg (u : io_usage) (cs : ChargerStat) (a b c d : Nat) :
    (u.add4 cs a b c d).cell .WRITE .BACKGROUND cs = add64 (u.cell .WRITE .BACKGROUND cs) d := by
  cases cs <;> rfl

theorem cell_add4_other_charger (u : io_usage) (cs cs' : ChargerStat) (a b c d : Nat)
    (h : cs' ≠ cs) (dd : IoDir) (ss : UidStat) :
    (u.add4 cs a b c d).cell dd ss cs' = u.cell dd ss cs' := by
  cases cs <;> cases cs' <;> first
  | exact absurd rfl h
  | cases dd <;> cases ss <;> rfl

/-- `add4` charges exactly the clamped delta of the selected counter pair. -/
theorem cell_add4_rw (u : io_usage) (cs : ChargerStat) (a b c d : Nat)
    (dd : IoDir) (ss : UidStat) :
    (u.add4 cs a b c d).cell dd ss cs
      = add64 (u.cell dd ss cs) (pick4 dd ss a b c d) := by
  cases dd <;> cases ss
  · exact cell_add4_read_fg u cs a b c d
  · exact cell_add4_read_bg u cs a b c d
  · exact cell_add4_write_fg u cs a b c d
  · exact cell_add4_write_bg u cs a b c d

/-! ### Clamped-delta lemmas -/

theorem clamped_delta_of_small_reset (curr prev : Nat) (hc : curr < w64) (hp : prev < w64)
    (hlt : curr < prev) (hgap : prev - curr ≤ 2 ^ 63) :
    clamped_delta curr prev = 0 := by
  have hcm : curr % w64 = curr := Nat.mod_eq_of_lt hc
  have hpm : prev % w64 = prev := Nat.mod_eq_of_lt hp
  have hw : w64 = 2 ^ 64 := rfl
  have hval : usub64 curr prev = w64 - (prev - curr) := by
    unfold usub64
    rw [hcm, hpm]
    have h1 : curr + (w64 - prev) < w64 := by omega
    rw [Nat.mod_eq_of_lt h1]
    omega
  have h2 : (w64 - (prev - curr)) % w64 = w64 - (prev - curr) := by
    apply Nat.mod_eq_of_lt
    omega
  have h3 : ¬ (w64 - (prev - curr)) % w64 < 2 ^ 63 := by
    rw [h2, hw] at *
    omega
  have ht : toInt64 (w64 - (prev - curr)) = ((w64 - (prev - curr) : Nat) : Int) - (w64 : Int) := by
    unfold toInt64
    rw [if_neg h3, h2]
  have h4 : ((w64 - (prev - curr) : Nat) : Int) - (w64 : Int) < 0 := by
    have hle : (w64 - (prev - curr) : Nat) < w64 := by omega
    have := Int.ofNat_lt.mpr hle
    omega
  show (if toInt64 (usub64 curr prev) < 0 then 0
        else (toInt64 (usub64 curr prev)).toNat) = 0
  rw [hval, ht, if_pos h4]

theorem clamped_delta_of_normal (curr prev : Nat) (hc : curr < w64)
    (hle : prev ≤ curr) (hgap : curr - prev < 2 ^ 63) :
    clamped_delta curr prev = curr - prev := by
  have hp : prev < w64 := Nat.lt_of_le_of_lt hle hc
  have hcm : curr % w64 = curr := Nat.mod_eq_of_lt hc
  have hpm : prev % w64 = prev := Nat.mod_eq_of_lt hp
  have hval : usub64 curr prev = curr - prev := by
    unfold usub64
    rw [hcm, hpm]
    have h1 : curr + (w64 - prev) = w64 + (curr - prev) := by omega
    rw [h1, Nat.add_mod_left]
    apply Nat.mod_eq_of_lt
    have hw : w64 = 2 ^ 64 := rfl
    omega
  have h2 : (curr - prev) % w64 = curr - prev := by
    apply Nat.mod_eq_of_lt
    have hw : w64 = 2 ^ 64 := rfl
    omega
  have ht : toInt64 (curr - prev) = ((curr - prev : Nat) : Int) := by
    unfold toInt64
    rw [h2, if_pos hgap]
  have h3 : ¬ ((curr - prev : Nat) : Int) < 0 := by
    simp
  show (if toInt64 (usub64 curr prev) < 0 then 0
        else (toInt64 (usub64 curr prev)).toNat) = curr - prev
  rw [hval, ht, if_neg h3]
  simp

/-! ### Record-store lemmas -/

theorem records_size_append (l1 l2 : List (Nat × uid_records)) :
    records_size (l1 ++ l2) = records_size l1 + records_size l2 := by
  induction l1 with
  | nil => simp [records_size]
  | cons h t ih => simp [records_size, ih]; omega

theorem evict_oldest_suffix (ov : Int) (l : List (Nat × uid_records)) :
    (evict_oldest ov l).IsSuffix l := by
  induction l generalizing ov with
  | nil => simp [evict_oldest]
  | cons b t ih =>
    unfold evict_oldest
    by_cases h : (0 : Int) < ov
    · rw [if_pos h]
      exact (ih _).trans (List.suffix_cons b t)
    · rw [if_neg h]

theorem records_size_of_suffix (l1 l2 : List (Nat × uid_records))
    (h : l1.IsSuffix l2) : records_size l1 ≤ records_size l2 := by
  obtain ⟨t, rfl⟩ := h
  rw [records_size_append]
  omega

theorem evict_oldest_bound (l : List (Nat × uid_records)) (ov : Int) :
    evict_oldest ov l = [] ∨
      ov ≤ (records_size l : Int) - records_size (evict_oldest ov l) := by
  induction l generalizing ov with
  | nil => left; rfl
  | cons b t ih =>
    unfold evict_oldest
    by_cases h : (0 : Int) < ov
    · rw [if_pos h]
      rcases ih (ov - (b.2.entries.length : Int)) with he | hb
      · left; exact he
      · right
        have : records_size (b :: t) = b.2.entries.length + records_size t := rfl
        rw [this]
        push_cast
        omega
    · rw [if_neg h]
      right
      have hle : records_size (b :: t) - records_size (b :: t) = 0 := by omega
      omega

theorem records_insert_size (k : Nat) (v : uid_records) (l : List (Nat × uid_records)) :
    records_size (records_insert k v l) ≤ records_size l + v.entries.length := by
  induction l with
  | nil => simp [records_insert, records_size]
  | cons h t ih =>
    unfold records_insert
    by_cases h1 : k < h.1
    · rw [if_pos h1]
      simp [records_size]
      omega
    · rw [if_neg h1]
      by_cases h2 : k = h.1
      · rw [if_pos h2]
        simp [records_size]
        omega
      · rw [if_neg h2]
        simp [records_size]
        omega

theorem mem_records_insert (k : Nat) (v : uid_records) (l : List (Nat × uid_records))
    (kv : Nat × uid_records) (h : kv ∈ records_insert k v l) :
    kv = (k, v) ∨ kv ∈ l := by
  induction l with
  | nil =>
    simp [records_insert] at h
    left; exact h
  | cons hd t ih =>
    unfold records_insert at h
    by_cases h1 : k < hd.1
    · rw [if_pos h1] at h
      rcases List.mem_cons.mp h with h | h
      · left; exact h
      · right; exact h
    · rw [if_neg h1] at h
      by_cases h2 : k = hd.1
      · rw [if_pos h2] at h
        rcases List.mem_cons.mp h with h | h
        · left; exact h
        · right; exact List.mem_cons_of_mem hd h
      · rw [if_neg h2] at h
        rcases List.mem_cons.mp h with h | h
        · right; exact h ▸ List.mem_cons_self hd t
        · rcases ih h with h3 | h3
          · left; exact h3
          · right; exact List.mem_cons_of_mem hd h3

/-- Every element surviving a `dropWhile (key < cutoff)` over a
strictly-key-sorted list has key at least the cutoff. -/
theorem dropWhile_cutoff_mem (l : List (Nat × uid_records)) (c : Nat)
    (hs : (l.map Prod.fst).Pairwise (· < ·)) :
    ∀ kv ∈ l.dropWhile (fun kv => kv.1 < c), c ≤ kv.1 := by
  induction l with
  | nil => intro kv h; simp [List.dropWhile] at h
  | cons a t ih =>
    intro kv hkv
    rw [List.map_cons, List.pairwise_cons] at hs
    rw [List.dropWhile_cons] at hkv
    by_cases ha : a.1 < c
    · simp only [ha, decide_eq_true_eq, if_true, decide_eq_true] at hkv
      exact ih hs.2 kv hkv
    · have hd : decide (a.1 < c) = false := decide_eq_false ha
      rw [hd] at hkv
      simp only [Bool.false_eq_true, if_false] at hkv
      rcases List.mem_cons.mp hkv with rfl | hkv
      · omega
      · have := hs.1 kv.1 (List.mem_map_of_mem Prod.fst hkv)
        omega

/-! ### Candidate-bucket lemmas -/

theorem build_new_entries_length (l : List (String × uid_io_usage))
    (h : ∀ p ∈ l, p.2.uid_ios.is_zero = false) :
    (build_new_entries l).length = l.length := by
  induction l with
  | nil => rfl
  | cons a t ih =>
    have ha := h a (by simp)
    have ih2 := ih (fun p hp => h p (by simp [hp]))
    simp only [build_new_entries] at ih2 ⊢
    simp only [List.filterMap_cons, ha, Bool.false_eq_true, if_false, List.length_cons]
    rw [ih2]

theorem mem_build_new_entries (l : List (String × uid_io_usage)) (r : uid_record) :
    r ∈ build_new_entries l ↔
      ∃ p ∈ l, p.2.uid_ios.is_zero = false ∧
        r = { name := p.1,
              ios := { uid_ios := p.2.uid_ios,
                       task_ios := p.2.task_ios.filter (fun q => !q.2.is_zero) } } := by
  unfold build_new_entries
  rw [List.mem_filterMap]
  constructor
  · rintro ⟨p, hp, hf⟩
    by_cases hz : p.2.uid_ios.is_zero
    · simp [hz] at hf
    · rw [if_neg hz] at hf
      refine ⟨p, hp, by simpa using hz, ?_⟩
      exact (Option.some.injEq _ _).mp hf |>.symm
  · rintro ⟨p, hp, hz, rfl⟩
    exact ⟨p, hp, by simp [hz]⟩

/-! ### Facts about `accumulate_uid_locked` -/

/-- The task loop only touches `task_ios`; the uid-level matrix is unchanged
by it. -/
theorem taskfold_uid_ios (cs : ChargerStat) (prev : uid_info)
    (l : List (Int × task_info)) (us : uid_io_usage) :
    (l.foldl (accumulate_task_locked cs prev) us).uid_ios = us.uid_ios := by
  induction l generalizing us with
  | nil => rfl
  | cons pt t ih => rw [List.foldl_cons, ih]; rfl

/-- The uid-level effect of one snapshot entry: the four clamped deltas
charged at the current charger state. -/
theorem accumulate_uid_locked_uid_ios (usage : uid_io_usage) (u prev : uid_info)
    (cs : ChargerStat) :
    (accumulate_uid_locked usage u prev cs).uid_ios
      = usage.uid_ios.add4 cs
          (clamped_delta u.io_fg.read_bytes prev.io_fg.read_bytes)
          (clamped_delta u.io_bg.read_bytes prev.io_bg.read_bytes)
          (clamped_delta u.io_fg.write_bytes prev.io_fg.write_bytes)
          (clamped_delta u.io_bg.write_bytes prev.io_bg.write_bytes) := by
  unfold accumulate_uid_locked
  rw [taskfold_uid_ios]

/-- Per-cell form of the uid-level accumulation: the cell keyed by the
current charger state gains exactly the clamped delta of its counter pair. -/
theorem accumulate_uid_cell (usage : uid_io_usage) (u prev : uid_info)
    (cs : ChargerStat) (dd : IoDir) (ss : UidStat) :
    (accumulate_uid_locked usage u prev cs).uid_ios.cell dd ss cs
      = add64 (usage.uid_ios.cell dd ss cs)
          (clamped_delta (rw_bytes u.io_fg u.io_bg dd ss)
            (rw_bytes prev.io_fg prev.io_bg dd ss)) := by
  rw [accumulate_uid_locked_uid_ios, cell_add4_rw]
  cases dd <;> cases ss <;> rfl

/-- Cells keyed by the other charger state are untouched by the uid-level
accumulation. -/
theorem accumulate_uid_cell_other (usage : uid_io_usage) (u prev : uid_info)
    (cs cs' : ChargerStat) (h : cs' ≠ cs) (dd : IoDir) (ss : UidStat) :
    (accumulate_uid_locked usage u prev cs).uid_ios.cell dd ss cs'
      = usage.uid_ios.cell dd ss cs' := by
  rw [accumulate_uid_locked_uid_ios]
  exact cell_add4_other_charger _ cs cs' _ _ _ _ h dd ss

/-- Claim C4 (counterexample): previous value `2^63 + 1`, current value `0`.
The current value is strictly below the previous one, yet the delta charged
to the accumulator cell is `2^63 - 1`, not `0`: the `uint64_t` difference
wraps to a value below `2^63`, so its `int64_t` reinterpretation is positive
and escapes the `< 0` clamp. -/
theorem C4_counterexample :
    (0 : Nat) < 2 ^ 63 + 1 ∧
    (accumulate_uid_locked {}
        { uid := 1, io_fg := { read_bytes := 0 } }
        { uid := 1, io_fg := { read_bytes := 2 ^ 63 + 1 } }
        .CHARGER_OFF).uid_ios.read_fg_off = 2 ^ 63 - 1 ∧
    (2 ^ 63 - 1 : Nat) ≠ 0 := by decide

/-- Claim C4 (amended): the delta charged to a counter cell is the 64-bit
wrapped difference current − previous reinterpreted as signed and clamped
below at zero.  Whenever current < previous with the drop at most 2^63 the
charge is exactly 0; whenever current ≥ previous with the rise below 2^63
the charge is exactly current − previous; the charge lands in the cell keyed
by the current charger state and the other charger state's cells are
untouched. -/
theorem C4_clamped_delta_amended (usage : uid_io_usage) (u prev : uid_info)
    (cs : ChargerStat) (dd : IoDir) (ss : UidStat) (curr_v prev_v : Nat)
    (hc : curr_v < w64) (hp : prev_v < w64) :
    ((accumulate_uid_locked usage u prev cs).uid_ios.cell dd ss cs
       = add64 (usage.uid_ios.cell dd ss cs)
           (clamped_delta (rw_bytes u.io_fg u.io_bg dd ss)
             (rw_bytes prev.io_fg prev.io_bg dd ss)))
    ∧ (curr_v < prev_v → prev_v - curr_v ≤ 2 ^ 63 →
        clamped_delta curr_v prev_v = 0)
    ∧ (prev_v ≤ curr_v → curr_v - prev_v < 2 ^ 63 →
        clamped_delta curr_v prev_v = curr_v - prev_v)
    ∧ (∀ cs', cs' ≠ cs →
        (accumulate_uid_locked usage u prev cs).uid_ios.cell dd ss cs'
          = usage.uid_ios.cell dd ss cs') := by
  refine ⟨accumulate_uid_cell usage u prev cs dd ss, ?_, ?_, ?_⟩
  · intro h1 h2
    exact clamped_delta_of_small_reset curr_v prev_v hc hp h1 h2
  · intro h1 h2
    exact clamped_delta_of_normal curr_v prev_v hc h1 h2
  · intro cs' hne
    exact accumulate_uid_cell_other usage u prev cs cs' hne dd ss

/-- Witness for C4: concrete evaluation of the amended statement at
current 3 / previous 10 (small reset, clamped to 0) and current 10 /
previous 3 (normal difference 7). -/
theorem C4_witness :
    clamped_delta 3 10 = 0 ∧ clamped_delta 10 3 = 10 - 3 :=
  ⟨(C4_clamped_delta_amended {} {} {} .CHARGER_OFF .READ .FOREGROUND 3 10
      (by decide) (by decide)).2.1 (by decide) (by decide),
   (C4_clamped_delta_amended {} {} {} .CHARGER_OFF .READ .FOREGROUND 10 3
      (by decide) (by decide)).2.2.1 (by decide) (by decide)⟩

/-- Claim C2 (counterexample): the trace of `dump(force_report = true)` is
not one critical section — it contains two lock acquisitions, because `dump`
calls `report()` (which takes and releases the lock itself) before acquiring
the lock for filtering. -/
theorem C2_counterexample :
    ¬ single_critical_section (dump_trace true) ∧
    count_acquires (dump_trace true) = 2 := by
  constructor
  · intro h
    exact absurd h.1 (by decide)
  · decide

/-- Claim C2 (amended): with force_report = true, dump first runs the whole
of report in its own critical section, releases the lock (depth returns to
zero), and only then acquires the lock again for filtering; every
acquisition in the combined trace happens with the non-reentrant semaphore
free, so the flush never re-acquires a held lock, but the lock is not held
between the flush and the filtering. -/
theorem C2_dump_trace_amended :
    dump_trace true = report_trace ++ dump_trace false ∧
    lock_depth report_trace = 0 ∧
    well_locked 0 (dump_trace true) = true ∧
    single_critical_section report_trace ∧
    single_critical_section (dump_trace false) := by
  refine ⟨rfl, rfl, rfl, ⟨?_, rfl, rfl⟩, ⟨?_, rfl, rfl⟩⟩ <;> decide

/-- Claim C3 (counterexample): a report cycle at time 500000 whose raw read
fails is not a no-op — `report` still calls `add_records_locked`, which sets
the accumulator start time to 500000 (it was 5) and prunes the stored bucket
keyed 1 (older than the 5-day window) out of the record store. -/
theorem C3_counterexample :
    (cx3_monitor.report none (fun _ => none) 500000).start_ts = 500000 ∧
    cx3_monitor.start_ts = 5 ∧
    (cx3_monitor.report none (fun _ => none) 500000).records = [] ∧
    cx3_monitor.records ≠ [] := by decide

/-- Claim C3 (amended): a failed raw read (and likewise an empty parsed
snapshot) makes the delta step a perfect no-op — snapshot, accumulator,
store and start time all untouched by it — but `report` still runs the flush
step on the prior accumulator contents; and on any successful read yielding
a non-empty snapshot, the retained snapshot is unconditionally replaced
wholesale by the new one. -/
theorem C3_failed_read_amended (m : uid_monitor)
    (resolver : List Nat → Option (List String)) (now : Nat) (rows : List RowData) :
    (m.update_curr_io_stats_locked none resolver = m) ∧
    (m.report none resolver now = m.add_records_locked now) ∧
    (m.update_curr_io_stats_locked (some []) resolver = m) ∧
    ((get_uid_io_stats_locked m.last_uid_io_stats m.refresh_uid_names
        (some rows) resolver).1 ≠ [] →
      (m.update_curr_io_stats_locked (some rows) resolver).last_uid_io_stats
        = (get_uid_io_stats_locked m.last_uid_io_stats m.refresh_uid_names
            (some rows) resolver).1) := by
  have h1 : m.update_curr_io_stats_locked none resolver = m := rfl
  refine ⟨h1, ?_, rfl, ?_⟩
  · show (m.update_curr_io_stats_locked none resolver).add_records_locked now
      = m.add_records_locked now
    rw [h1]
  · intro h
    cases hE : (get_uid_io_stats_locked m.last_uid_io_stats m.refresh_uid_names
        (some rows) resolver).1 with
    | nil => exact absurd hE h
    | cons a t =>
      simp [uid_monitor.update_curr_io_stats_locked, hE]

/-- Witness for C3: the amended statement evaluated at the empty monitor,
with a one-row successful read (snapshot replaced) and with a failed read
(perfect no-op of the delta step). -/
theorem C3_witness :
    (({} : uid_monitor).update_curr_io_stats_locked
        (some [RowData.uid_row 3 {} {}]) (fun _ => none)).last_uid_io_stats
      = (get_uid_io_stats_locked ([] : List (Nat × uid_info)) false
          (some [RowData.uid_row 3 {} {}]) (fun _ => none)).1 ∧
    ({} : uid_monitor).update_curr_io_stats_locked none (fun _ => none) = {} :=
  ⟨(C3_failed_read_amended {} (fun _ => none) 0 [RowData.uid_row 3 {} {}]).2.2.2
      (by decide),
   (C3_failed_read_amended {} (fun _ => none) 0 []).1⟩

/-! ### The two branches of `add_records_locked` -/

/-- With an empty candidate bucket the flush only prunes (and clears the
accumulator / advances `start_ts`). -/
theorem add_records_locked_records_empty (m : uid_monitor) (ts : Nat)
    (h : build_new_entries m.curr_io_stats = []) :
    (m.add_records_locked ts).records = prune_old_records ts m.records := by
  simp only [uid_monitor.add_records_locked, h, List.isEmpty_nil, if_true]

/-- With a non-empty candidate bucket the flush prunes, evicts from the
oldest end by the overflow amount, and inserts the candidate at the flush
timestamp. -/
theorem add_records_locked_records_nonempty (m : uid_monitor) (ts : Nat)
    (h : build_new_entries m.curr_io_stats ≠ []) :
    (m.add_records_locked ts).records
      = records_insert ts
          { start_ts := m.start_ts, entries := build_new_entries m.curr_io_stats }
          (evict_oldest
            ((records_size (prune_old_records ts m.records) : Int)
              + (build_new_entries m.curr_io_stats).length - MAX_UID_RECORDS_SIZE)
            (prune_old_records ts m.records)) := by
  have hne : (build_new_entries m.curr_io_stats).isEmpty = false := by
    cases hc : build_new_entries m.curr_io_stats with
    | nil => exact absurd hc h
    | cons a t => rfl
  simp only [uid_monitor.add_records_locked, hne, Bool.false_eq_true, if_false]

/-- Flushing a non-empty candidate into an empty store keeps exactly the
candidate's entries: there is no older bucket for the eviction loop to
remove. -/
theorem add_records_into_empty_size (m : uid_monitor) (ts : Nat)
    (hrec0 : m.records = []) (hne : build_new_entries m.curr_io_stats ≠ []) :
    records_size ((m.add_records_locked ts).records)
      = (build_new_entries m.curr_io_stats).length := by
  rw [add_records_locked_records_nonempty m ts hne, hrec0]
  have hpr : prune_old_records ts ([] : List (Nat × uid_records)) = [] := by
    unfold prune_old_records
    split <;> rfl
  rw [hpr]
  have hev : evict_oldest
      ((records_size ([] : List (Nat × uid_records)) : Int)
        + (build_new_entries m.curr_io_stats).length - MAX_UID_RECORDS_SIZE)
      ([] : List (Nat × uid_records)) = [] := rfl
  rw [hev]
  show records_size
      [(ts,
        ({ start_ts := m.start_ts,
           entries := build_new_entries m.curr_io_stats } : uid_records))]
    = _
  show (build_new_entries m.curr_io_stats).length
    + records_size ([] : List (Nat × uid_records)) = _
  have h0 : records_size ([] : List (Nat × uid_records)) = 0 := rfl
  omega

/-- Claim C1 (counterexample): a single flush of 48001 nonzero uid entries
into an empty store leaves 48001 stored records — the eviction loop stops
when the store holds no older bucket, so the stated cap of 1000 × 48 is
exceeded. -/
theorem C1_counterexample :
    MAX_UID_RECORDS_SIZE <
      records_size ((cx1_monitor.add_records_locked 7).records) := by
  have hall : ∀ p ∈ cx1_curr, p.2.uid_ios.is_zero = false := by
    intro p hp
    simp only [cx1_curr, List.mem_map] at hp
    obtain ⟨i, _, rfl⟩ := hp
    rfl
  have hlen : (build_new_entries cx1_curr).length = MAX_UID_RECORDS_SIZE + 1 := by
    rw [build_new_entries_length _ hall]
    simp [cx1_curr]
  have hcs : cx1_monitor.curr_io_stats = cx1_curr := by simp only [cx1_monitor]
  have hrec0 : cx1_monitor.records = [] := by simp only [cx1_monitor]
  have hne : build_new_entries cx1_monitor.curr_io_stats ≠ [] := by
    rw [hcs]
    intro h0
    rw [h0] at hlen
    exact absurd hlen (by decide)
  have hsz := add_records_into_empty_size cx1_monitor 7 hrec0 hne
  rw [hcs] at hsz
  rw [hsz, hlen]
  decide

/-- After pruning, evicting by the overflow amount and inserting the
candidate, the store holds at most `max cap candidate-size` records. -/
theorem flush_fit_bound (pruned : List (Nat × uid_records)) (cand : List uid_record)
    (sts ts : Nat) :
    records_size (records_insert ts { start_ts := sts, entries := cand }
      (evict_oldest ((records_size pruned : Int) + cand.length - MAX_UID_RECORDS_SIZE)
        pruned))
    ≤ max MAX_UID_RECORDS_SIZE cand.length := by
  rcases evict_oldest_bound pruned
      ((records_size pruned : Int) + cand.length - MAX_UID_RECORDS_SIZE) with hE | hB
  · rw [hE]
    refine le_trans (records_insert_size _ _ _) ?_
    refine le_trans ?_ (le_max_right MAX_UID_RECORDS_SIZE cand.length)
    show records_size ([] : List (Nat × uid_records)) + cand.length ≤ cand.length
    have h0 : records_size ([] : List (Nat × uid_records)) = 0 := rfl
    omega
  · refine le_trans (records_insert_size _ _ _) ?_
    refine le_trans ?_ (le_max_left MAX_UID_RECORDS_SIZE cand.length)
    show records_size (evict_oldest
        ((records_size pruned : Int) + cand.length - MAX_UID_RECORDS_SIZE) pruned)
      + cand.length ≤ MAX_UID_RECORDS_SIZE
    omega

/-- Claim C1 (amended): after a flush, the total stored record count is at
most the larger of the cap 1000 × 48 and the candidate bucket's own entry
count (so the cap holds whenever a single flush does not itself exceed it);
eviction removes whole buckets from the oldest end — the store the candidate
is inserted into is a suffix of the pruned store, which is itself a suffix
of the original store. -/
theorem C1_cap_amended (m : uid_monitor) (ts : Nat) :
    (build_new_entries m.curr_io_stats ≠ [] →
      records_size (m.add_records_locked ts).records
        ≤ max MAX_UID_RECORDS_SIZE (build_new_entries m.curr_io_stats).length) ∧
    (build_new_entries m.curr_io_stats = [] →
      (m.add_records_locked ts).records = prune_old_records ts m.records) ∧
    (evict_oldest
        ((records_size (prune_old_records ts m.records) : Int)
          + (build_new_entries m.curr_io_stats).length - MAX_UID_RECORDS_SIZE)
        (prune_old_records ts m.records)).IsSuffix
      (prune_old_records ts m.records) ∧
    (prune_old_records ts m.records).IsSuffix m.records := by
  refine ⟨?_, add_records_locked_records_empty m ts, evict_oldest_suffix _ _, ?_⟩
  · intro h
    rw [add_records_locked_records_nonempty m ts h]
    exact flush_fit_bound (prune_old_records ts m.records)
      (build_new_entries m.curr_io_stats) m.start_ts ts
  · unfold prune_old_records
    by_cases hc : 5 * DAY_TO_SEC < ts
    · rw [if_pos hc]
      exact List.dropWhile_suffix _
    · rw [if_neg hc]

/-- Witness for C1: the amended bound evaluated on a one-entry flush. -/
theorem C1_witness :
    records_size ((w1_monitor.add_records_locked 10).records)
      ≤ max MAX_UID_RECORDS_SIZE (build_new_entries w1_monitor.curr_io_stats).length :=
  (C1_cap_amended w1_monitor 10).1 (by decide)

/-- Claim C5 (confirmed): after a flush at time ts > 432000 every surviving
bucket key is at least ts − 432000 (given the store's std::map key
sortedness), and at ts ≤ 432000 the age prune does nothing at all. -/
theorem C5_retention (m : uid_monitor) (ts : Nat)
    (hs : (m.records.map Prod.fst).Pairwise (· < ·)) :
    (432000 < ts →
      ∀ k ∈ ((m.add_records_locked ts).records.map Prod.fst), ts - 432000 ≤ k) ∧
    (ts ≤ 432000 → prune_old_records ts m.records = m.records) := by
  have h5 : 5 * DAY_TO_SEC = 432000 := by decide
  constructor
  · intro hgt k hk
    have hcut : ∀ kv ∈ prune_old_records ts m.records, ts - 432000 ≤ kv.1 := by
      unfold prune_old_records
      rw [if_pos (by omega)]
      intro kv hkv
      have := dropWhile_cutoff_mem m.records (ts - 5 * DAY_TO_SEC) hs kv hkv
      omega
    by_cases hE : build_new_entries m.curr_io_stats = []
    · rw [add_records_locked_records_empty m ts hE] at hk
      obtain ⟨kv, hkv, rfl⟩ := List.mem_map.mp hk
      exact hcut kv hkv
    · rw [add_records_locked_records_nonempty m ts hE] at hk
      obtain ⟨kv, hkv, rfl⟩ := List.mem_map.mp hk
      rcases mem_records_insert _ _ _ kv hkv with rfl | hkv2
      · show ts - 432000 ≤ ts
        omega
      · have hkv3 := (evict_oldest_suffix _ _).subset hkv2
        exact hcut kv hkv3
  · intro hle
    unfold prune_old_records
    rw [if_neg (by omega)]

/-- Witness for C5: after a flush at time 500000 the surviving key 70000 is
at least the cutoff 68000. -/
theorem C5_witness : 500000 - 432000 ≤ 70000 :=
  (C5_retention w5_monitor 500000 (by decide)).1 (by decide) 70000 (by decide)

/-! ### Dump lemmas (claim C6) -/

theorem ne_nil_of_isEmpty_false {α : Type} (l : List α) (h : l.isEmpty = false) :
    l ≠ [] := by
  cases l with
  | nil => simp at h
  | cons a t => simp

theorem isEmpty_false_of_ne_nil {α : Type} (l : List α) (h : l ≠ []) :
    l.isEmpty = false := by
  cases l with
  | nil => exact absurd rfl h
  | cons a t => rfl

/-- A nonzero usage matrix has a strictly positive true 8-cell sum. -/
theorem total_bytes_pos (u : io_usage) (h : u.is_zero = false) :
    0 < total_bytes u := by
  by_contra hc
  push_neg at hc
  have h0 : total_bytes u = 0 := by omega
  unfold total_bytes at h0
  have h1 : u.read_fg_on = 0 := by omega
  have h2 : u.read_fg_off = 0 := by omega
  have h3 : u.read_bg_on = 0 := by omega
  have h4 : u.read_bg_off = 0 := by omega
  have h5 : u.write_fg_on = 0 := by omega
  have h6 : u.write_fg_off = 0 := by omega
  have h7 : u.write_bg_on = 0 := by omega
  have h8 : u.write_bg_off = 0 := by omega
  have : u.is_zero = true := by
    unfold io_usage.is_zero
    simp [h1, h2, h3, h4, h5, h6, h7, h8]
  rw [this] at h
  exact absurd h (by decide)

/-- The wrapped sum the code compares never exceeds the true sum. -/
theorem dump_threshold_sum_le (u : io_usage) :
    dump_threshold_sum u ≤ total_bytes u := by
  unfold dump_threshold_sum total_bytes
  exact Nat.mod_le _ _

/-- Unfolding equation for `dump_bucket`. -/
theorem dump_bucket_eq (threshold : Nat) (kv : Nat × uid_records) :
    dump_bucket threshold kv
      = (if (kv.2.entries.filter
            (fun rec => threshold < dump_threshold_sum rec.ios.uid_ios)).isEmpty
         then none
         else some (kv.1,
           ({ start_ts := kv.2.start_ts,
              entries := kv.2.entries.filter
                (fun rec => threshold < dump_threshold_sum rec.ios.uid_ios) }
            : uid_records))) := rfl

/-- What a surviving dump bucket looks like. -/
theorem dump_bucket_some (threshold : Nat) (kv kv2 : Nat × uid_records)
    (h : dump_bucket threshold kv = some kv2) :
    kv2.2.entries
      = kv.2.entries.filter (fun rec => threshold < dump_threshold_sum rec.ios.uid_ios)
    ∧ kv2.2.entries ≠ [] ∧ kv2.1 = kv.1 ∧ kv2.2.start_ts = kv.2.start_ts := by
  rw [dump_bucket_eq] at h
  cases hE : (kv.2.entries.filter
      (fun rec => threshold < dump_threshold_sum rec.ios.uid_ios)).isEmpty with
  | true =>
    rw [hE] at h
    simp at h
  | false =>
    rw [hE] at h
    simp only [Bool.false_eq_true, if_false] at h
    have h2 := (Option.some.inj h).symm
    subst h2
    refine ⟨rfl, ?_, rfl, rfl⟩
    have hfne : kv.2.entries.filter
        (fun rec => threshold < dump_threshold_sum rec.ios.uid_ios) ≠ [] := by
      intro hnil
      rw [hnil] at hE
      simp at hE
    exact hfne

theorem dropWhile_lt_zero (l : List (Nat × uid_records)) :
    l.dropWhile (fun kv => decide (kv.1 < 0)) = l := by
  induction l with
  | nil => rfl
  | cons a t ih =>
    rw [List.dropWhile_cons]
    simp

/-- With threshold 0, a store all of whose records are nonzero with
non-overflowing sums passes the bucket filter untouched. -/
theorem filterMap_dump_bucket_id (l : List (Nat × uid_records))
    (hgood : ∀ kv ∈ l, kv.2.entries ≠ [] ∧
      ∀ r ∈ kv.2.entries, r.ios.uid_ios.is_zero = false ∧
        total_bytes r.ios.uid_ios < w64) :
    l.filterMap (dump_bucket 0) = l := by
  induction l with
  | nil => rfl
  | cons kv t ih =>
    have hkv := hgood kv (by simp)
    have hfil : kv.2.entries.filter
        (fun rec => 0 < dump_threshold_sum rec.ios.uid_ios) = kv.2.entries := by
      rw [List.filter_eq_self]
      intro r hr
      have hr2 := hkv.2 r hr
      have hpos : 0 < total_bytes r.ios.uid_ios := total_bytes_pos _ hr2.1
      have hsum : dump_threshold_sum r.ios.uid_ios = total_bytes r.ios.uid_ios := by
        unfold dump_threshold_sum total_bytes at *
        exact Nat.mod_eq_of_lt hr2.2
      rw [hsum]
      exact decide_eq_true hpos
    have hb : dump_bucket 0 kv = some kv := by
      rw [dump_bucket_eq, hfil, isEmpty_false_of_ne_nil _ hkv.1]
      rfl
    rw [List.filterMap_cons, hb, ih (fun p hp => hgood p (by simp [hp]))]

/-- Claim C6 (counterexample): the store holds one non-empty bucket whose
single record has nonzero usage, yet `dump(hours = 0, threshold = 0)`
returns nothing: the threshold comparison adds the 8 cells in `uint64_t`,
`2^63 + 2^63` wraps to `0`, and `0 > 0` fails. -/
theorem C6_counterexample :
    dump_locked cx6_records 200 0 0 = [] ∧
    cx6_records ≠ [] ∧
    (∀ kv ∈ cx6_records, kv.2.entries ≠ [] ∧
      ∀ r ∈ kv.2.entries, r.ios.uid_ios.is_zero = false) := by decide

/-- Claim C6 (amended): every record that dump returns has true 8-cell sum
strictly above the threshold and no returned bucket is empty; and when every
stored record is nonzero with a true sum below 2^64 (no `uint64_t` wrap in
the comparison) and every stored bucket non-empty,
`dump(hours = 0, threshold = 0)` returns the whole store unchanged,
`start_ts` included. -/
theorem C6_dump_amended (records : List (Nat × uid_records))
    (now hours threshold : Nat) :
    (∀ kv ∈ dump_locked records now hours threshold,
      kv.2.entries ≠ [] ∧ ∀ r ∈ kv.2.entries, threshold < total_bytes r.ios.uid_ios) ∧
    ((∀ kv ∈ records, kv.2.entries ≠ [] ∧
        ∀ r ∈ kv.2.entries, r.ios.uid_ios.is_zero = false ∧
          total_bytes r.ios.uid_ios < w64) →
      dump_locked records now 0 0 = records) := by
  constructor
  · intro kv hkv
    unfold dump_locked at hkv
    rw [List.mem_filterMap] at hkv
    obtain ⟨kv0, _, hf⟩ := hkv
    obtain ⟨hent, hne, _, _⟩ := dump_bucket_some threshold kv0 kv hf
    refine ⟨hne, ?_⟩
    intro r hr
    rw [hent] at hr
    have := List.of_mem_filter hr
    have hlt : threshold < dump_threshold_sum r.ios.uid_ios := of_decide_eq_true this
    exact lt_of_lt_of_le hlt (dump_threshold_sum_le _)
  · intro hgood
    show (records.dropWhile (fun kv =>
        decide (kv.1 < (if (0 : Nat) ≠ 0 then now - 0 * HOUR_TO_SEC else 0)))).filterMap
      (dump_bucket 0) = records
    have h00 : (if (0 : Nat) ≠ 0 then now - 0 * HOUR_TO_SEC else 0) = 0 := by simp
    rw [h00, dropWhile_lt_zero, filterMap_dump_bucket_id records hgood]

/-- Witness for C6: a small well-formed store is returned whole by
`dump(0, 0)`, and the record its threshold-3 dump returns has true sum
above 3. -/
theorem C6_witness :
    dump_locked w6_records 11 0 0 = w6_records ∧
    3 < total_bytes ({ name := "w",
                       ios := { uid_ios := { read_fg_on := 7 },
                                task_ios := [] } } : uid_record).ios.uid_ios :=
  ⟨(C6_dump_amended w6_records 11 0 0).2 (by decide),
   ((C6_dump_amended w6_records 11 0 3).1
      (10, { start_ts := 5,
             entries := [{ name := "w",
                           ios := { uid_ios := { read_fg_on := 7 },
                                    task_ios := [] } }] })
      (by decide)).2
      { name := "w", ios := { uid_ios := { read_fg_on := 7 }, task_ios := [] } }
      (by decide)⟩

/-! ### Claim C10: flush inclusion is decided by the uid-level usage -/

/-- Claim C10 (confirmed): a flush candidate includes a `uid_record` for
exactly the accumulator entries with nonzero uid-level usage — an all-zero
uid-level entry yields no record even when its task map is nonzero (those
task deltas are discarded: the accumulator is cleared by the flush) — and an
included record's task map keeps exactly the nonzero task usages. -/
theorem C10_flush_inclusion (m : uid_monitor) (ts : Nat)
    (curr : List (String × uid_io_usage))
    (hkeys : (curr.map Prod.fst).Nodup) :
    (∀ p ∈ curr, p.2.uid_ios.is_zero = true →
      ∀ r ∈ build_new_entries curr, r.name ≠ p.1) ∧
    (∀ p ∈ curr, p.2.uid_ios.is_zero = false →
      ∃ r ∈ build_new_entries curr, r.name = p.1 ∧
        r.ios.uid_ios = p.2.uid_ios ∧
        r.ios.task_ios = p.2.task_ios.filter (fun q => !q.2.is_zero)) ∧
    (∀ r ∈ build_new_entries curr, ∀ q ∈ r.ios.task_ios, q.2.is_zero = false) ∧
    (m.add_records_locked ts).curr_io_stats = [] := by
  refine ⟨?_, ?_, ?_, ?_⟩
  · intro p hp hz r hr hname
    obtain ⟨q, hq, hqz, rfl⟩ := (mem_build_new_entries curr r).mp hr
    have hq1 : q.1 = p.1 := hname
    have := List.inj_on_of_nodup_map hkeys hq hp hq1
    rw [this] at hqz
    rw [hz] at hqz
    exact absurd hqz (by decide)
  · intro p hp hz
    exact ⟨_, (mem_build_new_entries curr _).mpr ⟨p, hp, hz, rfl⟩, rfl, rfl, rfl⟩
  · intro r hr q hq
    obtain ⟨p, hp, hpz, rfl⟩ := (mem_build_new_entries curr r).mp hr
    have hq2 : q ∈ p.2.task_ios.filter (fun q => !q.2.is_zero) := hq
    have := List.of_mem_filter hq2
    simpa using this
  · simp only [uid_monitor.add_records_locked]
    split <;> rfl

/-- Witness for C10: the record flushed for the live entry does not carry
the zero-uid-level entry's name, and the flush clears the accumulator. -/
theorem C10_witness :
    ({ name := "liveuid",
       ios := { uid_ios := { read_fg_off := 2 },
                task_ios := [("t", { read_fg_on := 1 })] } } : uid_record).name
      ≠ ("zerouid",
        ({ uid_ios := {}, task_ios := [("t", { read_fg_on := 5 })] }
         : uid_io_usage)).1 ∧
    (({ curr_io_stats := w10_curr } : uid_monitor).add_records_locked 3).curr_io_stats
      = [] :=
  ⟨(C10_flush_inclusion { curr_io_stats := w10_curr } 3 w10_curr (by decide)).1
      ("zerouid", { uid_ios := {}, task_ios := [("t", { read_fg_on := 5 })] })
      (by decide) (by decide)
      { name := "liveuid",
        ios := { uid_ios := { read_fg_off := 2 },
                 task_ios := [("t", { read_fg_on := 1 })] } }
      (by decide),
   (C10_flush_inclusion { curr_io_stats := w10_curr } 3 w10_curr (by decide)).2.2.2⟩

/-! ### Claim C8: task aggregation keyed by command name -/

/-- Two consecutive charges into the same command-name key accumulate into
one map entry. -/
theorem aupdate_add4_twice (T : List (String × io_usage)) (c : String)
    (cs : ChargerStat) (a1 b1 c1 d1 a2 b2 c2 d2 : Nat)
    (dd : IoDir) (ss : UidStat) :
    (task_usage (aupdate (aupdate T c (fun tu => tu.add4 cs a1 b1 c1 d1)) c
        (fun tu => tu.add4 cs a2 b2 c2 d2)) c).cell dd ss cs
      = ((task_usage T c).cell dd ss cs
          + pick4 dd ss a1 b1 c1 d1 + pick4 dd ss a2 b2 c2 d2) % w64 := by
  unfold task_usage
  rw [alookup_aupdate_self, alookup_aupdate_self]
  simp only [Option.getD_some]
  rw [cell_add4_rw, cell_add4_rw]
  have hd : ((alookup T c).getD (default : io_usage))
      = ((alookup T c).getD ({} : io_usage)) := rfl
  rw [hd]
  unfold add64
  rw [Nat.mod_add_mod, Nat.add_assoc]

/-- Claim C8 (confirmed): within one interval, two tasks with distinct pids
but equal command names have their clamped deltas summed into the single
task-map entry keyed by that command name, for each of the 4 counters at
the current charger state. -/
theorem C8_task_aggregation (usage : uid_io_usage) (u prev : uid_info)
    (cs : ChargerStat) (p1 p2 : Int) (t1 t2 : task_info)
    (htasks : u.tasks = [(p1, t1), (p2, t2)])
    (hpid : p1 ≠ p2) (hcomm : t1.comm = t2.comm) (dd : IoDir) (ss : UidStat) :
    (task_usage (accumulate_uid_locked usage u prev cs).task_ios t1.comm).cell dd ss cs
      = ((task_usage usage.task_ios t1.comm).cell dd ss cs
          + clamped_delta (rw_bytes t1.io_fg t1.io_bg dd ss)
              (rw_bytes (lookup_task_info prev.tasks p1).io_fg
                (lookup_task_info prev.tasks p1).io_bg dd ss)
          + clamped_delta (rw_bytes t2.io_fg t2.io_bg dd ss)
              (rw_bytes (lookup_task_info prev.tasks p2).io_fg
                (lookup_task_info prev.tasks p2).io_bg dd ss)) % w64 := by
  have ht : (accumulate_uid_locked usage u prev cs).task_ios
      = aupdate (aupdate usage.task_ios t1.comm (fun tu =>
          tu.add4 cs
            (clamped_delta t1.io_fg.read_bytes (lookup_task_info prev.tasks p1).io_fg.read_bytes)
            (clamped_delta t1.io_bg.read_bytes (lookup_task_info prev.tasks p1).io_bg.read_bytes)
            (clamped_delta t1.io_fg.write_bytes (lookup_task_info prev.tasks p1).io_fg.write_bytes)
            (clamped_delta t1.io_bg.write_bytes (lookup_task_info prev.tasks p1).io_bg.write_bytes)))
        t2.comm (fun tu =>
          tu.add4 cs
            (clamped_delta t2.io_fg.read_bytes (lookup_task_info prev.tasks p2).io_fg.read_bytes)
            (clamped_delta t2.io_bg.read_bytes (lookup_task_info prev.tasks p2).io_bg.read_bytes)
            (clamped_delta t2.io_fg.write_bytes (lookup_task_info prev.tasks p2).io_fg.write_bytes)
            (clamped_delta t2.io_bg.write_bytes (lookup_task_info prev.tasks p2).io_bg.write_bytes)) := by
    unfold accumulate_uid_locked
    rw [htasks]
    rfl
  rw [ht, hcomm, aupdate_add4_twice]
  cases dd <;> cases ss <;> rfl

/-- Witness for C8: the two concrete tasks of `w8_uid` (distinct pids 1 and
2, shared command name) add 5 + 7 into the single entry keyed by the shared
name. -/
theorem C8_witness :
    (task_usage (accumulate_uid_locked {} w8_uid {} .CHARGER_ON).task_ios
        w8_task1.comm).cell .READ .FOREGROUND .CHARGER_ON
      = ((task_usage ({} : uid_io_usage).task_ios w8_task1.comm).cell
            .READ .FOREGROUND .CHARGER_ON
          + clamped_delta
              (rw_bytes w8_task1.io_fg w8_task1.io_bg .READ .FOREGROUND)
              (rw_bytes (lookup_task_info ({} : uid_info).tasks 1).io_fg
                (lookup_task_info ({} : uid_info).tasks 1).io_bg .READ .FOREGROUND)
          + clamped_delta
              (rw_bytes w8_task2.io_fg w8_task2.io_bg .READ .FOREGROUND)
              (rw_bytes (lookup_task_info ({} : uid_info).tasks 2).io_fg
                (lookup_task_info ({} : uid_info).tasks 2).io_bg .READ .FOREGROUND))
          % w64 :=
  C8_task_aggregation {} w8_uid {} .CHARGER_ON 1 2 w8_task1 w8_task2
    (by decide) (by decide) (by decide) .READ .FOREGROUND

/-! ### Claim C9: the accumulator is keyed by display name -/

theorem add64_lt (a b : Nat) : add64 a b < w64 := by
  unfold add64
  exact Nat.mod_lt _ (by decide)

/-- Per-name cell characterisation of the accumulator update: one snapshot
pass adds to the entry of display name `n` the summed clamped deltas of all
snapshot uids bearing that name. -/
theorem accumulate_all_cell (stats : List (Nat × uid_info))
    (curr : List (String × uid_io_usage)) (last : List (Nat × uid_info))
    (cs : ChargerStat) (n : String) (dd : IoDir) (ss : UidStat)
    (hc : (curr_usage curr n).uid_ios.cell dd ss cs < w64) :
    (curr_usage (accumulate_all curr stats last cs) n).uid_ios.cell dd ss cs
      = ((curr_usage curr n).uid_ios.cell dd ss cs
          + uid_delta_sum stats last n dd ss) % w64 := by
  induction stats generalizing curr with
  | nil =>
    have h1 : accumulate_all curr [] last cs = curr := rfl
    have h2 : uid_delta_sum [] last n dd ss = 0 := rfl
    rw [h1, h2, Nat.add_zero, Nat.mod_eq_of_lt hc]
  | cons kv rest ih =>
    have hstep : accumulate_all curr (kv :: rest) last cs
        = accumulate_all (aupdate curr kv.2.name (fun usage =>
            accumulate_uid_locked usage kv.2 (lookup_uid_info last kv.2.uid) cs))
            rest last cs := rfl
    rw [hstep]
    by_cases hn : kv.2.name = n
    · have hval : curr_usage (aupdate curr kv.2.name (fun usage =>
          accumulate_uid_locked usage kv.2 (lookup_uid_info last kv.2.uid) cs)) n
          = accumulate_uid_locked (curr_usage curr n) kv.2
              (lookup_uid_info last kv.2.uid) cs := by
        unfold curr_usage
        rw [hn, alookup_aupdate_self]
        simp only [Option.getD_some]
        rfl
      have hc2 : (curr_usage (aupdate curr kv.2.name (fun usage =>
          accumulate_uid_locked usage kv.2 (lookup_uid_info last kv.2.uid) cs))
            n).uid_ios.cell dd ss cs < w64 := by
        rw [hval, accumulate_uid_cell]
        exact add64_lt _ _
      rw [ih _ hc2, hval, accumulate_uid_cell]
      have hsum : uid_delta_sum (kv :: rest) last n dd ss
          = clamped_delta (rw_bytes kv.2.io_fg kv.2.io_bg dd ss)
              (rw_bytes (lookup_uid_info last kv.2.uid).io_fg
                (lookup_uid_info last kv.2.uid).io_bg dd ss)
            + uid_delta_sum rest last n dd ss := by
        unfold uid_delta_sum
        rw [List.filter_cons]
        simp [hn]
      rw [hsum]
      unfold add64
      rw [Nat.mod_add_mod, Nat.add_assoc]
    · have hval : curr_usage (aupdate curr kv.2.name (fun usage =>
          accumulate_uid_locked usage kv.2 (lookup_uid_info last kv.2.uid) cs)) n
          = curr_usage curr n := by
        unfold curr_usage
        rw [alookup_aupdate_ne _ _ _ _ (fun he => hn he.symm)]
      have hc2 : (curr_usage (aupdate curr kv.2.name (fun usage =>
          accumulate_uid_locked usage kv.2 (lookup_uid_info last kv.2.uid) cs))
            n).uid_ios.cell dd ss cs < w64 := by
        rw [hval]
        exact hc
      rw [ih _ hc2, hval]
      have hsum : uid_delta_sum (kv :: rest) last n dd ss
          = uid_delta_sum rest last n dd ss := by
        unfold uid_delta_sum
        rw [List.filter_cons]
        simp [hn]
      rw [hsum]

/-- Claim C9 (counterexample): the accumulator is keyed by display name, not
uid.  A sample with two distinct uids that resolve to the same name "A"
produces a single accumulator entry holding the merged total 10 + 20 = 30,
although the snapshot holds two distinct uids. -/
theorem C9_counterexample :
    ((({} : uid_monitor).update_curr_io_stats_locked (some cx9_rows)
        cx9_resolver).curr_io_stats.map Prod.fst) = ["A"] ∧
    (curr_usage (({} : uid_monitor).update_curr_io_stats_locked (some cx9_rows)
        cx9_resolver).curr_io_stats "A").uid_ios.read_fg_off = 30 ∧
    (get_uid_io_stats_locked [] false (some cx9_rows) cx9_resolver).1.length = 2 := by
  decide

/-- Claim C9 (amended): each display name has its own accumulator entry
whose uid-level cell at the current charger state accrues the summed clamped
deltas of exactly the snapshot uids bearing that name — so two distinct uids
merge into one entry precisely when they share a display name; and whenever
the snapshot is non-empty, the monitor's accumulator is updated by exactly
this per-name fold. -/
theorem C9_name_keyed_amended (stats last : List (Nat × uid_info))
    (curr : List (String × uid_io_usage)) (cs : ChargerStat) (n : String)
    (dd : IoDir) (ss : UidStat)
    (hc : (curr_usage curr n).uid_ios.cell dd ss cs < w64) :
    ((curr_usage (accumulate_all curr stats last cs) n).uid_ios.cell dd ss cs
      = ((curr_usage curr n).uid_ios.cell dd ss cs
          + uid_delta_sum stats last n dd ss) % w64) ∧
    (∀ (m : uid_monitor) (raw : Option (List RowData))
        (resolver : List Nat → Option (List String)),
      (get_uid_io_stats_locked m.last_uid_io_stats m.refresh_uid_names
          raw resolver).1 ≠ [] →
      (m.update_curr_io_stats_locked raw resolver).curr_io_stats
        = accumulate_all m.curr_io_stats
            (get_uid_io_stats_locked m.last_uid_io_stats m.refresh_uid_names
              raw resolver).1
            m.last_uid_io_stats m.charger_stat) := by
  constructor
  · exact accumulate_all_cell stats curr last cs n dd ss hc
  · intro m raw resolver h
    cases hE : (get_uid_io_stats_locked m.last_uid_io_stats m.refresh_uid_names
        raw resolver).1 with
    | nil => exact absurd hE h
    | cons a t =>
      simp [uid_monitor.update_curr_io_stats_locked, hE]

/-- Witness for C9: the per-name formula evaluated on a two-uid snapshot
with distinct names. -/
theorem C9_witness :
    (curr_usage (accumulate_all [] w9_stats [] .CHARGER_OFF) "A").uid_ios.cell
        .READ .FOREGROUND .CHARGER_OFF
      = ((curr_usage [] "A").uid_ios.cell .READ .FOREGROUND .CHARGER_OFF
          + uid_delta_sum w9_stats [] "A" .READ .FOREGROUND) % w64 :=
  (C9_name_keyed_amended w9_stats [] [] .CHARGER_OFF "A" .READ .FOREGROUND
    (by decide)).1

/-! ### Claim C7: name caching and re-resolution -/

theorem snapshot_name_aset_self (stats : List (Nat × uid_info)) (k : Nat)
    (v : uid_info) : snapshot_name (aset stats k v) k = v.name := by
  unfold snapshot_name lookup_uid_info
  rw [alookup_aset_self]
  rfl

theorem snapshot_name_aset_ne (stats : List (Nat × uid_info)) (k u : Nat)
    (v : uid_info) (h : u ≠ k) :
    snapshot_name (aset stats k v) u = snapshot_name stats u := by
  unfold snapshot_name lookup_uid_info
  rw [alookup_aset_ne _ _ _ _ h]

theorem snapshot_name_aupdate (stats : List (Nat × uid_info)) (k u : Nat)
    (f : uid_info → uid_info) (hf : ∀ e, (f e).name = e.name) :
    snapshot_name (aupdate stats k f) u = snapshot_name stats u := by
  unfold snapshot_name lookup_uid_info
  by_cases h : u = k
  · subst h
    rw [alookup_aupdate_self]
    simp only [Option.getD_some]
    rw [hf]
    rfl
  · rw [alookup_aupdate_ne _ _ _ _ h]

/-- Row-loop invariant: if the refresh flag starts clear and every uid row
of the sample is already present in the last snapshot, then the loop leaves
the refresh flag clear, preserves any carried-forward name, and gives every
sampled uid its name from the last snapshot. -/
theorem process_rows_inv (last : List (Nat × uid_info)) :
    ∀ (rows : List RowData) (st : List (Nat × uid_info) × List Nat × Nat × Bool),
    st.2.2.2 = false →
    (∀ uid io_fg io_bg, RowData.uid_row uid io_fg io_bg ∈ rows →
      (alookup last uid).isSome = true) →
    (rows.foldl (process_row last) st).2.2.2 = false ∧
    (∀ uid, snapshot_name st.1 uid = snapshot_name last uid →
      snapshot_name (rows.foldl (process_row last) st).1 uid
        = snapshot_name last uid) ∧
    (∀ uid io_fg io_bg, RowData.uid_row uid io_fg io_bg ∈ rows →
      snapshot_name (rows.foldl (process_row last) st).1 uid
        = snapshot_name last uid) := by
  intro rows
  induction rows with
  | nil =>
    intro st hrf _
    refine ⟨hrf, fun uid h => h, ?_⟩
    intro uid a b h
    simp at h
  | cons r rest ih =>
    intro st hrf hrows
    obtain ⟨stats, uids, cu, rf⟩ := st
    have hrf2 : rf = false := hrf
    subst hrf2
    rw [List.foldl_cons]
    cases r with
    | uid_row uid io_fg io_bg =>
      have hs := hrows uid io_fg io_bg (List.mem_cons_self _ _)
      obtain ⟨lu, hlu⟩ := Option.isSome_iff_exists.mp hs
      have hst : process_row last (stats, uids, cu, false)
            (.uid_row uid io_fg io_bg)
          = (aset stats uid
              { uid := uid, name := lu.name, io_fg := io_fg, io_bg := io_bg,
                tasks := [] },
             uids ++ [uid], uid, false) := by
        simp only [process_row]
        rw [hlu]
      rw [hst]
      have hname_last : snapshot_name last uid = lu.name := by
        unfold snapshot_name lookup_uid_info
        rw [hlu]
        rfl
      have IH := ih (aset stats uid
          { uid := uid, name := lu.name, io_fg := io_fg, io_bg := io_bg,
            tasks := [] },
          uids ++ [uid], uid, false) rfl
        (fun u a b hm => hrows u a b (List.mem_cons_of_mem _ hm))
      refine ⟨IH.1, ?_, ?_⟩
      · intro u hpre
        apply IH.2.1 u
        by_cases he : u = uid
        · subst he
          have h2 := snapshot_name_aset_self stats u
            { uid := u, name := lu.name, io_fg := io_fg, io_bg := io_bg, tasks := [] }
          exact h2.trans hname_last.symm
        · have h2 := snapshot_name_aset_ne stats uid u
            { uid := uid, name := lu.name, io_fg := io_fg, io_bg := io_bg, tasks := [] }
            he
          exact h2.trans hpre
      · intro u a b hm
        rcases List.mem_cons.mp hm with heq | hm2
        · injection heq with h1 h2 h3
          subst h1
          apply IH.2.1 u
          have h2b := snapshot_name_aset_self stats u
            { uid := u, name := lu.name, io_fg := io_fg, io_bg := io_bg, tasks := [] }
          exact h2b.trans hname_last.symm
        · exact IH.2.2 u a b hm2
    | task_row t =>
      have hst : process_row last (stats, uids, cu, false) (.task_row t)
          = (aupdate stats cu (fun e => { e with tasks := aset e.tasks t.pid t }),
             uids, cu, false) := by
        simp only [process_row]
      rw [hst]
      have IH := ih (aupdate stats cu
          (fun e => { e with tasks := aset e.tasks t.pid t }), uids, cu, false) rfl
        (fun u a b hm => hrows u a b (List.mem_cons_of_mem _ hm))
      refine ⟨IH.1, ?_, ?_⟩
      · intro u hpre
        apply IH.2.1 u
        have h2 := snapshot_name_aupdate stats cu u
          (fun e => { e with tasks := aset e.tasks t.pid t }) (fun e => rfl)
        exact h2.trans hpre
      · intro u a b hm
        rcases List.mem_cons.mp hm with heq | hm2
        · exact RowData.noConfusion heq
        · exact IH.2.2 u a b hm2

/-- Unfolding equation for `get_uid_io_stats_locked` on a successful read. -/
theorem get_some_eq (last : List (Nat × uid_info)) (refresh : Bool)
    (rows : List RowData) (resolver : List Nat → Option (List String)) :
    get_uid_io_stats_locked last refresh (some rows) resolver
      = (if !(rows.foldl (process_row last) ([], [], 0, refresh)).2.1.isEmpty
            && (rows.foldl (process_row last) ([], [], 0, refresh)).2.2.2 then
           match resolver (rows.foldl (process_row last) ([], [], 0, refresh)).2.1 with
           | none => ((rows.foldl (process_row last) ([], [], 0, refresh)).1,
                      (rows.foldl (process_row last) ([], [], 0, refresh)).2.2.2)
           | some names =>
             (apply_uid_names (rows.foldl (process_row last) ([], [], 0, refresh)).1
               (rows.foldl (process_row last) ([], [], 0, refresh)).2.1 names,
              false)
         else ((rows.foldl (process_row last) ([], [], 0, refresh)).1,
               (rows.foldl (process_row last) ([], [], 0, refresh)).2.2.2)) := rfl

/-- Claim C7 (amended): names are carried forward from the last snapshot,
and in a sample all of whose uids are already known (no pending refresh) no
resolution happens at all — the result does not depend on the resolver and
every sampled uid keeps its name from the last snapshot.  (The
counterexample shows that one new uid in the sample triggers a resolution
pass covering every uid of the sample, overwriting already-learned names.) -/
theorem C7_name_refresh_amended (last : List (Nat × uid_info))
    (rows : List RowData)
    (resolver resolver2 : List Nat → Option (List String))
    (hknown : ∀ uid io_fg io_bg, RowData.uid_row uid io_fg io_bg ∈ rows →
      (alookup last uid).isSome = true) :
    get_uid_io_stats_locked last false (some rows) resolver
      = get_uid_io_stats_locked last false (some rows) resolver2 ∧
    (∀ uid io_fg io_bg, RowData.uid_row uid io_fg io_bg ∈ rows →
      snapshot_name (get_uid_io_stats_locked last false (some rows) resolver).1 uid
        = snapshot_name last uid) := by
  have inv := process_rows_inv last rows ([], [], 0, false) rfl hknown
  have hget : ∀ res : List Nat → Option (List String),
      get_uid_io_stats_locked last false (some rows) res
        = ((rows.foldl (process_row last) ([], [], 0, false)).1,
           (rows.foldl (process_row last) ([], [], 0, false)).2.2.2) := by
    intro res
    rw [get_some_eq, inv.1]
    simp only [Bool.and_false, Bool.false_eq_true, if_false]
  refine ⟨(hget resolver).trans (hget resolver2).symm, ?_⟩
  intro uid a b hm
  rw [hget resolver]
  exact inv.2.2 uid a b hm

/-- Claim C7 (counterexample): uid 1 already has the learned name "app1",
but because the same sample contains the first-time uid 2, the resolution
pass covers both uids and uid 1's cached name is overwritten by the fresh
resolver answer "fresh1" — an already-named uid is re-resolved. -/
theorem C7_counterexample :
    snapshot_name cx7_last 1 = "app1" ∧
    snapshot_name (get_uid_io_stats_locked cx7_last false (some cx7_rows)
        cx7_resolver).1 1 = "fresh1" ∧
    (get_uid_io_stats_locked cx7_last false (some cx7_rows) cx7_resolver).2
      = false := by decide

/-- Witness for C7: with no new uid in the sample, two arbitrary resolvers
give identical results and uid 1 keeps its carried name. -/
theorem C7_witness :
    get_uid_io_stats_locked w7_last false (some w7_rows) (fun _ => some ["zzz"])
      = get_uid_io_stats_locked w7_last false (some w7_rows) (fun _ => none) ∧
    snapshot_name (get_uid_io_stats_locked w7_last false (some w7_rows)
        (fun _ => some ["zzz"])).1 1 = snapshot_name w7_last 1 :=
  ⟨(C7_name_refresh_amended w7_last w7_rows (fun _ => some ["zzz"])
      (fun _ => none)
      (by
        intro u a b hm
        simp only [w7_rows, List.mem_singleton] at hm
        injection hm with h1 h2 h3
        subst h1
        decide)).1,
   (C7_name_refresh_amended w7_last w7_rows (fun _ => some ["zzz"])
      (fun _ => none)
      (by
        intro u a b hm
        simp only [w7_rows, List.mem_singleton] at hm
        injection hm with h1 h2 h3
        subst h1
        decide)).2 1 { read_bytes := 3 } {} (by decide)⟩

end Spec2Proof
